import Mathlib

/-!
Shallow embedding of the block allocator in src/alloc.c.

Modelling conventions:
* `uint64_t` values are `Nat` reduced mod `U64 = 2 ^ 64` wherever the C code can wrap.
* Pool memory (`mem`) is modelled word-indexed: every load and store in alloc.c is a
  `uint64_t` access at an offset that is a multiple of 8 bytes, so word index = byte
  offset / 8.  Pointers into the pool are byte offsets from the pool base `mem`
  (mmap returns a page-aligned base, so offset alignment equals pointer alignment).
* The occupancy bitmap (`bitmap`) is byte-indexed; each stored byte is < 256
  (`uint8_t`), which the `% 256` in `MARK` maintains.
* Both regions are modelled as total functions `Nat → Nat`; reads the C program makes
  outside an allocated region read the function.  Every concrete scenario below is
  arranged so that no conclusion depends on a byte the C program could not also
  observe (except where the point is precisely that the code reads out of bounds,
  as for claim C4, where the dependence itself is the theorem).
* `time(0)` is an input: `alloc` takes the current tick `now` as an argument and
  stores it as the guard value, exactly as line 125 of alloc.c does.
* The C left shifts promote `(uint8_t)1` to `int`; for shift counts 0..30 the result
  is the exact power of two, which `Nat.shiftLeft` gives.  No scenario below shifts
  by 31 or more (larger counts are undefined behaviour in the C source).
-/

namespace Malloc

/-- Modulus for `uint64_t` wraparound arithmetic. -/
def U64 : Nat := 2 ^ 64

/-- Allocator state: the four globals of alloc.c (`mem`, `bitmap`, `blocks`,
`poison`).  `mem` is word-indexed (8-byte words), `bitmap` byte-indexed.
`blocks = 0` is the uninitialized state (the C globals start as zero). -/
structure AllocState where
  mem : Nat → Nat
  bitmap : Nat → Nat
  blocks : Nat
  poison : Bool

/-- Store a 64-bit word at word index `w` (`*ptr = v` through a `uint64_t*`). -/
def writeWord (m : Nat → Nat) (w v : Nat) : Nat → Nat :=
  fun k => if k = w then v % U64 else m k

/-- The `IS_FREE` macro of alloc.c line 81:
`(bitmap[blkid / 8] & (((uint8_t)1) << blkid)) == 0`.
Note the shift count is `blkid`, not `blkid % 8`: for `blkid ≥ 8` the mask
exceeds 255 and the conjunction with a byte is always 0, i.e. always free. -/
def IS_FREE (bm : Nat → Nat) (blkid : Nat) : Bool :=
  bm (blkid / 8) &&& (1 <<< blkid) == 0

/-- The `MARK` macro of alloc.c line 82:
`bitmap[blkid / 8] ^= ((((uint8_t)1) << blkid) - 1)`.
The byte is XORed with the mask `2 ^ blkid - 1` (low `blkid` bits), truncated to
`uint8_t` on the compound assignment. -/
def MARK (bm : Nat → Nat) (blkid : Nat) : Nat → Nat :=
  fun k => if k = blkid / 8 then (bm (blkid / 8) ^^^ ((1 <<< blkid) - 1)) % 256 else bm k

/-- Apply `MARK` to indices `lo, lo+1, ..., lo+cnt-1` in order (the marking loops
of alloc.c lines 117-119 and 167-169, each of which runs `blk + 1` iterations). -/
def markRange (bm : Nat → Nat) (lo cnt : Nat) : Nat → Nat :=
  (List.range cnt).foldl (fun b k => MARK b (lo + k)) bm

/-- The inner scan of alloc.c lines 111-114: all of `i, ..., i+blk-1` pass `IS_FREE`. -/
def checkRun (bm : Nat → Nat) (i blk : Nat) : Bool :=
  (List.range blk).all (fun k => IS_FREE bm (i + k))

/-- The first-fit scan of alloc.c lines 108-114: the first `i < blocks` whose
block passes `IS_FREE` and whose run of `blk` blocks from `i` passes the inner
scan.  There is no check that `i + blk ≤ blocks`. -/
def findRun (bm : Nat → Nat) (blocks blk : Nat) : Option Nat :=
  (List.range blocks).find? (fun i => IS_FREE bm i && checkRun bm i blk)

/-- The size rounding of alloc.c lines 86-89 (also alloc_init lines 38-41):
`if (sz % 16 != 0) sz += (16 - sz % 16);` on a `uint64_t`, hence mod `2 ^ 64`. -/
def roundUp16 (sz : Nat) : Nat :=
  if sz % 16 ≠ 0 then (sz + (16 - sz % 16)) % U64 else sz

/-- `alloc_init` of alloc.c lines 37-79: rounds the pool size up to a multiple of
16, obtains zeroed pool and bitmap regions (mmap MAP_ANON memory is zero-filled),
and sets `blocks = pool / 16`. -/
def alloc_init (pool : Nat) : AllocState :=
  { mem := fun _ => 0
    bitmap := fun _ => 0
    blocks := roundUp16 pool / 16
    poison := false }

/-- `alloc` of alloc.c lines 85-139.  `now` is the value `time(0)` returns during
this call.  Returns the C function's result (`none` for a null pointer, `some p`
for the payload pointer at byte offset `p` from the pool base) and the state
after the call.  On success at run start `i` with `blk` blocks the code marks
indices `i .. i+blk` (one extra, lines 117-119), stores `blk` and the guard in
the header words `2*i` and `2*i+1`, duplicates the guard in both footer words
`2*(i+blk-1)` and `2*(i+blk-1)+1`, and returns `mem + (i+1)*16`. -/
def alloc (s : AllocState) (now sz : Nat) : Option Nat × AllocState :=
  let sz2 := roundUp16 sz
  let blk := sz2 / 16 + 2
  if s.poison then (none, s)
  else
    match findRun s.bitmap s.blocks blk with
    | none => (none, s)
    | some i =>
        let bm := markRange s.bitmap i (blk + 1)
        let m1 := writeWord s.mem (2 * i) blk
        let m2 := writeWord m1 (2 * i + 1) (now % U64)
        let m3 := writeWord m2 (2 * (i + blk - 1)) (now % U64)
        let m4 := writeWord m3 (2 * (i + blk - 1) + 1) (now % U64)
        (some ((i + 1) * 16), { s with mem := m4, bitmap := bm })

/-- The stored block count free_mem reads at alloc.c line 146: the word two
`uint64_t` slots before `data` (pointer subtraction wraps mod `2 ^ 64`). -/
def headerCount (s : AllocState) (data : Nat) : Nat :=
  s.mem (((data + U64 - 16) % U64) / 8)

/-- The stored guard free_mem reads at alloc.c line 148: the word one slot
before `data`. -/
def headerMagic (s : AllocState) (data : Nat) : Nat :=
  s.mem (((data + U64 - 8) % U64) / 8)

/-- The footer address computed at alloc.c line 154: `data + (blk - 2) * 16`,
all in 64-bit pointer arithmetic. -/
def footerAddr (data blk : Nat) : Nat :=
  (data + ((blk + U64 - 2) % U64) * 16 % U64) % U64

/-- The footer word free_mem compares at alloc.c line 155 (`*ptr`). -/
def footerWord (s : AllocState) (data : Nat) : Nat :=
  s.mem (footerAddr data (headerCount s data) / 8)

/-- `free_mem` of alloc.c lines 142-170.  Reads `blk` and `magic` from the two
words before `data`, reads the word at `data + (blk-2)*16` (no plausibility
check on `blk` happens before this dereference), and on mismatch poisons the
allocator; on match it computes `offset = (data - mem - 16) / 16` and runs the
`MARK` loop over indices `offset .. offset+blk` (again `blk + 1` iterations). -/
def free_mem (s : AllocState) (data : Nat) : AllocState :=
  if headerMagic s data ≠ footerWord s data then
    { s with poison := true }
  else
    { s with bitmap := markRange s.bitmap (((data + U64 - 16) % U64) / 16) (headerCount s data + 1) }

/-- `clear_posion` of alloc.c lines 173-175. -/
def clear_posion (s : AllocState) : AllocState :=
  { s with poison := false }

/-- Spec-side observer: the occupancy bit of block `j` under the packing the
spec describes (one bit per block, bit `j % 8` of byte `j / 8`).  Used to state
the claims, which speak of individual blocks' bits; it agrees with the code's
`IS_FREE` for `j < 8`. -/
def specBitSet (bm : Nat → Nat) (j : Nat) : Bool :=
  bm (j / 8) &&& (1 <<< (j % 8)) != 0

/-- Spec-side observer: some run `[i, i+blk) ⊆ [0, blocks)` has every block's
occupancy bit clear (a contiguous free run of the required length exists). -/
def specHasFreeRun (bm : Nat → Nat) (blocks blk : Nat) : Bool :=
  (List.range blocks).any
    (fun i => decide (i + blk ≤ blocks) && (List.range blk).all (fun k => !specBitSet bm (i + k)))

/-! Concrete scenario states used by the claim theorems below. -/

/-- Pool words of a state that looks exactly like one live allocation made by
`alloc` at block 0 with `blk = 3` and guard 77: header words `(3, 77)`, footer
block 2 holding 77 in both words. -/
def c3mem : Nat → Nat :=
  fun k => if k = 0 then 3 else if k = 1 then 77 else if k = 4 then 77 else if k = 5 then 77 else 0

/-- State for the C3 release scenario: the allocation above, with every bit of
bitmap byte 0 set (blocks 0..7 occupied) in a pool of 8 blocks. -/
def c3state : AllocState :=
  { mem := c3mem, bitmap := fun _ => 255, blocks := 8, poison := false }

/-- Pool words for the C4 scenario: header at block 0 stores the implausible
block count 1000 and guard 77; word 1998 (byte offset 15984, far outside the
128-byte pool) also holds 77, so the footer comparison succeeds there. -/
def c4memA : Nat → Nat :=
  fun k => if k = 0 then 1000 else if k = 1 then 77 else if k = 1998 then 77 else 0

/-- Same pool words as `c4memA` on every word of the 8-block pool (words 0..15),
but word 1998 outside the pool is 0, so the footer comparison fails there. -/
def c4memB : Nat → Nat :=
  fun k => if k = 0 then 1000 else if k = 1 then 77 else 0

/-- C4 scenario state built over `c4memA`. -/
def c4stateA : AllocState :=
  { mem := c4memA, bitmap := fun _ => 0, blocks := 8, poison := false }

/-- C4 scenario state built over `c4memB`. -/
def c4stateB : AllocState :=
  { mem := c4memB, bitmap := fun _ => 0, blocks := 8, poison := false }

/-- Pool words for the C5 witness: the header guard word before offset 16 is 5;
everything else, including the word the footer comparison reads, is 0. -/
def c5mem : Nat → Nat :=
  fun k => if k = 1 then 5 else 0

/-- C5 witness state: guard mismatch on release of offset 16. -/
def c5state : AllocState :=
  { mem := c5mem, bitmap := fun _ => 7, blocks := 8, poison := false }

/-- State reached from a fresh 16-block pool (init 256) by `alloc(160)`:
bitmap byte 0 is 85 (bits 0,2,4,6), byte 1 is 255, so the only free blocks are
the isolated 1, 3, 5, 7 and no free run of length 3 exists. -/
def c7state : AllocState :=
  (alloc (alloc_init 256) 5 160).2

/-- Poisoned state used as the C8 witness. -/
def c8state : AllocState :=
  { mem := fun _ => 0, bitmap := fun _ => 0, blocks := 4, poison := true }

/-! Claim theorems. -/

/-- Claim C1: a successful allocation that selects the run starting at block
`i` with `blk` blocks is claimed to mark exactly the bits of `[i, i+blk)` and
no others.  The code diverges: on a fresh 8-block pool, `alloc(16)` selects
`i = 0`, `blk = 3`, yet afterwards block 1 — inside the run — is still free,
because the `MARK` macro XORs `bitmap[j/8]` with the mask `2^j - 1` instead of
setting bit `j % 8`, and the marking loop runs over `[i, i+blk]` (one extra
index).  Bitmap byte 0 ends up 5 (bits 0 and 2), not 7 (bits 0, 1, 2). -/
theorem C1_alloc_marking_diverges :
    (alloc (alloc_init 128) 7 16).1 = some 16 ∧
    (alloc (alloc_init 128) 7 16).2.bitmap 0 = 5 ∧
    specBitSet (alloc (alloc_init 128) 7 16).2.bitmap 0 = true ∧
    specBitSet (alloc (alloc_init 128) 7 16).2.bitmap 1 = false ∧
    specBitSet (alloc (alloc_init 128) 7 16).2.bitmap 2 = true := by
  decide

/-- Claim C2: successive successful allocations on a fresh pool are claimed to
return pairwise disjoint payload ranges.  The code diverges: on a fresh
32-block pool (init 512), `alloc(160)` returns payload offset 16 with
`blk = 12`, so its payload bytes are `[16, 176)`; the next `alloc(16)` returns
payload offset 128 (`blk = 3`, payload bytes `[128, 144)`), wholly inside the
first payload, because `IS_FREE` treats every block index ≥ 8 as free (the
shift `1 << blkid` is not reduced mod 8) and the XOR marking left bit 7 clear. -/
theorem C2_payloads_overlap :
    (alloc (alloc_init 512) 7 160).1 = some 16 ∧
    (alloc ((alloc (alloc_init 512) 7 160).2) 8 16).1 = some 128 ∧
    (16 ≤ 128 ∧ 128 + 16 ≤ 16 + 160) := by
  decide

/-- Claim C3: a release whose footer guard matches the header guard is claimed
to clear exactly `blockCount` bits starting at the header's block index and to
change no other bit.  The code diverges: in `c3state` (a valid-looking
allocation `blk = 3` at block 0, guards 77, all of bitmap byte 0 set),
`free_mem` at offset 16 takes the match path (poison stays false) but leaves
byte 0 at 250 — bit 1, inside the 3-bit run starting at the computed index 0,
is still set — whereas clearing bits 0, 1, 2 of 255 would give 248.  The cause
is the same XOR-mask `MARK` macro plus the `blk + 1`-iteration loop. -/
theorem C3_release_clear_diverges :
    headerMagic c3state 16 = footerWord c3state 16 ∧
    headerCount c3state 16 = 3 ∧
    (free_mem c3state 16).poison = false ∧
    (free_mem c3state 16).bitmap 0 = 250 ∧
    specBitSet (free_mem c3state 16).bitmap 1 = true := by
  decide

/-- Claim C4: release is claimed to validate that the stored `blockCount` is
plausible (at most the total block count) before the footer location is read.
The code has no such validation: `c4stateA` and `c4stateB` agree on every word
of the 8-block pool (words 0..15) and store the implausible count 1000, yet
`free_mem` produces different poison outcomes on them, which can only happen
because it dereferenced the footer location `data + (1000-2)*16` — far outside
the pool — before any plausibility check. -/
theorem C4_footer_read_without_validation :
    c4stateA.blocks < headerCount c4stateA 16 ∧
    (∀ k, k < 16 → c4stateA.mem k = c4stateB.mem k) ∧
    (free_mem c4stateA 16).poison = false ∧
    (free_mem c4stateB 16).poison = true := by
  decide

/-- Claim C5: whenever the footer word `free_mem` reads differs from the header
guard, the call sets the poison flag and leaves the bitmap unchanged, so the
allocation's blocks stay exactly as they were. -/
theorem C5_mismatch_poisons_and_preserves_bitmap (s : AllocState) (data : Nat)
    (h : headerMagic s data ≠ footerWord s data) :
    (free_mem s data).poison = true ∧ (free_mem s data).bitmap = s.bitmap := by
  unfold free_mem
  rw [if_pos h]
  exact ⟨rfl, rfl⟩

/-- Witness for C5 at the concrete mismatching state `c5state` and offset 16. -/
theorem C5_mismatch_witness :
    (free_mem c5state 16).poison = true ∧ (free_mem c5state 16).bitmap = c5state.bitmap :=
  C5_mismatch_poisons_and_preserves_bitmap c5state 16 (by decide)

/-- Claim C6: the guards of any two successful allocations are claimed to be
distinct, in particular within one clock tick.  The code stores `time(0)`
(seconds) as the guard: two allocations from a fresh 32-block pool with the
same tick value 1000 both succeed (payload offsets 16 and 64) and write the
same guard 1000 into their header guard words (words 1 and 7). -/
theorem C6_same_tick_guards_collide :
    (alloc (alloc_init 512) 1000 16).1 = some 16 ∧
    (alloc ((alloc (alloc_init 512) 1000 16).2) 1000 16).1 = some 64 ∧
    (alloc ((alloc (alloc_init 512) 1000 16).2) 1000 16).2.mem 1 = 1000 ∧
    (alloc ((alloc (alloc_init 512) 1000 16).2) 1000 16).2.mem 7 = 1000 := by
  decide

/-- Claim C7: in a state with no contiguous free run of the required length,
`allocate` is claimed to return null and leave the bitmap unchanged.  The code
diverges in `c7state`, reached from a fresh 16-block pool by `alloc(160)`: no
free run of length 3 exists (the free blocks are the isolated 1, 3, 5, 7), yet
`alloc(16)` (which needs `blk = 3`) succeeds with payload offset 128 and
rewrites bitmap byte 0 from 85 to 42, because `IS_FREE` reports every block
index ≥ 8 free regardless of its bit. -/
theorem C7_alloc_succeeds_without_free_run :
    specHasFreeRun c7state.bitmap c7state.blocks 3 = false ∧
    roundUp16 16 / 16 + 2 = 3 ∧
    (alloc c7state 6 16).1 = some 128 ∧
    c7state.bitmap 0 = 85 ∧
    (alloc c7state 6 16).2.bitmap 0 = 42 := by
  decide

/-- Claim C8: whenever the allocator is poisoned or uninitialized (the C
globals start at zero, so `blocks = 0`), `alloc` returns null and the state is
exactly unchanged, for every requested size and tick. -/
theorem C8_poisoned_or_uninitialized_alloc_fails (s : AllocState) (now sz : Nat)
    (h : s.poison = true ∨ s.blocks = 0) :
    alloc s now sz = (none, s) := by
  rcases h with hp | hb
  · simp [alloc, hp]
  · cases hps : s.poison
    · simp [alloc, hps, hb, findRun]
    · simp [alloc, hps]

/-- Witness for C8 at the concrete poisoned state `c8state`. -/
theorem C8_poisoned_witness : alloc c8state 0 16 = (none, c8state) :=
  C8_poisoned_or_uninitialized_alloc_fails c8state 0 16 (Or.inl rfl)

/-- Claim C9: every successful allocation is claimed to select a run with
`i + blk ≤ blocks`.  The code diverges: on a fresh 8-block pool (init 128),
`alloc(112)` needs `blk = 9 > 8`, yet the first-fit scan selects `i = 0`
(`IS_FREE` reports block 8 free because the mask `1 << 8` exceeds a byte) and
the allocation succeeds, placing its footer at block 8, outside the pool. -/
theorem C9_selected_run_exceeds_pool :
    (alloc_init 128).blocks = 8 ∧
    findRun (alloc_init 128).bitmap (alloc_init 128).blocks (roundUp16 112 / 16 + 2) = some 0 ∧
    ¬ (0 + (roundUp16 112 / 16 + 2) ≤ (alloc_init 128).blocks) ∧
    (alloc (alloc_init 128) 5 112).1 = some 16 := by
  decide

/-- Claim C10: the size rounding is mod `2 ^ 64`: for every size above
`2 ^ 64 - 16` (necessarily not a multiple of 16) the rounded size wraps to 0
and the block count becomes `0 / 16 + 2 = 2`, a zero-payload allocation. -/
theorem C10_rounding_wraps_to_zero (sz : Nat)
    (h1 : 2 ^ 64 - 16 < sz) (h2 : sz < 2 ^ 64) :
    roundUp16 sz = 0 ∧ roundUp16 sz / 16 + 2 = 2 := by
  interval_cases sz <;> decide

/-- Witness for C10 at the largest `uint64_t` value. -/
theorem C10_rounding_witness :
    roundUp16 (2 ^ 64 - 1) = 0 ∧ roundUp16 (2 ^ 64 - 1) / 16 + 2 = 2 :=
  C10_rounding_wraps_to_zero (2 ^ 64 - 1) (by decide) (by decide)

end Malloc
